import Mathlib

/-!
Shallow embedding of the execution-tracking coordinator of
`comfy-ui-client-enhanced` (`src/client.ts`), centred on `getImages` and
its WebSocket `onMessage` handler, together with theorems settling the
spec claims about it.

Modelling conventions:
* bytes are `List Nat`;
* the remote server (history records, artifact contents) is an `Env` of
  oracle functions;
* the per-tracking-operation observable state (`TrackState`) records
  whether the `onMessage` listener is still attached, how the promise has
  settled, and how many history fetches were issued — the observable
  effects the claims speak about;
* each inbound WebSocket event is one `WsEvent`; a trace is a list of
  events folded through the handler.
-/

namespace ComfyClient

/-- An artifact reference: the (filename, subfolder, storage-type) triple,
as in the `ImageRef` type used by `getImage`. -/
structure ImageRef where
  filename : String
  subfolder : String
  type : String
deriving DecidableEq, Repr

/-- A fetched artifact paired with the reference it was fetched under,
as pushed by `getImages` (`{ buffer, image }`). -/
structure ImageContainer where
  buffer : List Nat
  image : ImageRef
deriving DecidableEq, Repr

/-- One output node's entry in a history record.  `images = none` models a
node entry with no `images` field (a falsy `nodeOutput.images`); `some refs`
models a declared `images` array (truthy in JS even when empty). -/
structure NodeOutput where
  images : Option (List ImageRef)
deriving DecidableEq, Repr

/-- The history record for one prompt: `history.outputs` as an association
list from output-node identifier to its entry, in `Object.keys` order. -/
structure HistoryEntry where
  outputs : List (String × NodeOutput)
deriving DecidableEq, Repr

/-- A JavaScript-like value for the `node` field of an `executing`
message, enough to model the truthiness test `!messageData.node`. -/
inductive JSVal where
  | null
  | undef
  | str (s : String)
  | num (n : Int)
  | bool (b : Bool)
deriving DecidableEq, Repr

/-- JS truthiness of a `JSVal`: `null`, `undefined`, `""`, `0` and
`false` are falsy, everything else truthy. -/
def JSVal.truthy : JSVal → Bool
  | .null => false
  | .undef => false
  | .str s => !(s = "")
  | .num n => !(n = 0)
  | .bool b => b

/-- The error the tracking promise can be rejected with.
`protocolError` stands for the `JSON.parse` exception on a malformed text
frame; `historyError` for the `TypeError` raised when the fetched history
has no record for the prompt id; `fetchError r` for a failed artifact
download of reference `r` propagated out of `getImage`. -/
inductive TrackError where
  | protocolError
  | historyError
  | fetchError (ref : ImageRef)
deriving DecidableEq, Repr

/-- How the `getImages` promise has settled.  A JS promise settles at most
once: later `resolve`/`reject` calls leave the settled value unchanged. -/
inductive Settled where
  | pending
  | resolved (images : List (String × List ImageContainer))
  | rejected (err : TrackError)
deriving DecidableEq, Repr

/-- `resolve(v)`: records `v` only if the promise is still pending. -/
def Settled.resolveWith (s : Settled) (v : List (String × List ImageContainer)) : Settled :=
  match s with
  | .pending => .resolved v
  | s => s

/-- `reject(e)`: records `e` only if the promise is still pending. -/
def Settled.rejectWith (s : Settled) (e : TrackError) : Settled :=
  match s with
  | .pending => .rejected e
  | s => s

/-- Observable state of one tracking operation started by `getImages`:
whether `onMessage` is still attached to the socket, how the promise has
settled, and how many `getHistory` calls the handler has issued. -/
structure TrackState where
  listener : Bool
  settled : Settled
  historyFetches : Nat
deriving DecidableEq, Repr

/-- State right after `getImages` attaches `onMessage`: listener on,
promise pending, no history fetched yet. -/
def initState : TrackState :=
  { listener := true, settled := .pending, historyFetches := 0 }

/-- The server-side oracles `getImages` consults after completion:
`history p` is `(await getHistory(p))[p]` and `fetchImage r` is the
outcome of `getImage(r.filename, r.subfolder, r.type)` (`none` = the
request failed). -/
structure Env where
  history : String → Option HistoryEntry
  fetchImage : ImageRef → Option (List Nat)

/-- One inbound WebSocket occurrence as seen by the tracking operation:
a binary frame, a text frame that fails `JSON.parse`, a parsed text frame
(with its `type` discriminant and, for `executing` messages, the `node`
and `prompt_id` fields of `data`), or a close of the connection. -/
inductive WsEvent where
  | binary
  | malformed
  | text (type : String) (node : JSVal) (prompt_id : String)
  | close
deriving DecidableEq, Repr

/-- The inner fetch loop of `getImages` for one node's `images` array:
fetch each reference in listed order, pairing the buffer with its
reference; the first failing fetch aborts with that reference. -/
def fetchNode (env : Env) : List ImageRef → Except ImageRef (List ImageContainer)
  | [] => .ok []
  | r :: rs =>
    match env.fetchImage r with
    | none => .error r
    | some buf =>
      match fetchNode env rs with
      | .error r2 => .error r2
      | .ok tl => .ok ({ buffer := buf, image := r } :: tl)

/-- The outer loop of `getImages` over `Object.keys(history.outputs)`:
nodes whose entry has no `images` field are skipped; for the rest the
artifacts are fetched in order and keyed by the node id.  A failing fetch
aborts the whole loop (the partially built collection is discarded by the
rejection). -/
def fetchOutputs (env : Env) : List (String × NodeOutput) →
    Except ImageRef (List (String × List ImageContainer))
  | [] => .ok []
  | (nid, out) :: rest =>
    match out.images with
    | none => fetchOutputs env rest
    | some refs =>
      match fetchNode env refs with
      | .error r => .error r
      | .ok imgs =>
        match fetchOutputs env rest with
        | .error r => .error r
        | .ok tail => .ok ((nid, imgs) :: tail)

/-- The `onMessage` handler of `getImages` applied to one event.
Faithful to the source: binary frames return immediately; a parse failure
rejects (listener left attached); a non-`executing` type is ignored; an
`executing` message with truthy `node` is ignored; a falsy `node` with a
non-matching `prompt_id` only logs; a falsy `node` with the tracked
`prompt_id` fetches the history and then every referenced artifact, and on
success removes the listener and resolves — on any failure it rejects with
the listener still attached.  A connection close is not observed by the
handler (the `close` listener installed in `connect` only logs). -/
def onMessage (env : Env) (promptId : String) (s : TrackState) : WsEvent → TrackState
  | .binary => s
  | .close => s
  | .malformed =>
    if s.listener then { s with settled := s.settled.rejectWith .protocolError } else s
  | .text t node pid =>
    if s.listener then
      if t = "executing" then
        if node.truthy then s
        else if pid = promptId then
          let s1 := { s with historyFetches := s.historyFetches + 1 }
          match env.history promptId with
          | none => { s1 with settled := s1.settled.rejectWith .historyError }
          | some h =>
            match fetchOutputs env h.outputs with
            | .error r => { s1 with settled := s1.settled.rejectWith (.fetchError r) }
            | .ok imgs =>
              { s1 with listener := false, settled := s1.settled.resolveWith imgs }
        else s
      else s
    else s

/-- Deliver a trace of events to the tracking operation in order. -/
def runTrace (env : Env) (promptId : String) (s : TrackState) (events : List WsEvent) :
    TrackState :=
  events.foldl (onMessage env promptId) s

/-- The error message thrown by `getImages` when no WebSocket is set. -/
def noWsErrorMsg : String :=
  "WebSocket client is not connected. Please call connect() before interacting."

/-- Outcome of entering `getImages`: an error (if thrown), the number of
prompts the server-side queue holds afterwards, and whether a message
listener was registered. -/
structure InitOutcome where
  error : Option String
  queued : Nat
  listenerRegistered : Bool
deriving DecidableEq, Repr

/-- The entry phase of `getImages`: without a connected WebSocket it
throws before `queuePrompt` is ever called (queue untouched, no listener
registered); otherwise the prompt is queued and the listener attached. -/
def getImagesInit (wsConnected : Bool) (queued : Nat) : InitOutcome :=
  if wsConnected then { error := none, queued := queued + 1, listenerRegistered := true }
  else { error := some noWsErrorMsg, queued := queued, listenerRegistered := false }

/-- An event the spec calls irrelevant for the tracker of `promptId`:
a binary frame, a parsed text frame whose type is not `executing`, or an
`executing` frame carrying a different job identifier. -/
def Irrelevant (promptId : String) : WsEvent → Prop
  | .binary => True
  | .text t _ pid => t ≠ "executing" ∨ pid ≠ promptId
  | _ => False

end ComfyClient

namespace ComfyClient

/-- Boolean version of `Irrelevant`, for decidable hypotheses. -/
def irrelevantEvent (promptId : String) : WsEvent → Bool
  | .binary => true
  | .text t _ pid => !(t == "executing") || !(pid == promptId)
  | _ => false

/-! ### Concrete fixtures used by witnesses and counterexamples -/

/-- The first artifact reference of the spec's round-trip scenario. -/
def refA : ImageRef := { filename := "a.png", subfolder := "", type := "output" }

/-- The second artifact reference of the spec's round-trip scenario. -/
def refB : ImageRef := { filename := "b.png", subfolder := "", type := "output" }

/-- The history outputs of the round-trip scenario: node `"9"` lists two
artifact references, node `"10"` declares no `images` field. -/
def outs1 : List (String × NodeOutput) :=
  [("9", { images := some [refA, refB] }), ("10", { images := none })]

/-- A healthy server: history for prompt `"abc123"` is `outs1`, both
artifacts download deterministically. -/
def env1 : Env where
  history := fun p => if p = "abc123" then some { outputs := outs1 } else none
  fetchImage := fun r => if r = refA then some [1] else if r = refB then some [2] else none

/-- A server on which downloading `refB` fails. -/
def envFail : Env where
  history := fun p =>
    if p = "abc123" then some { outputs := [("9", { images := some [refA, refB] })] }
    else none
  fetchImage := fun r => if r = refA then some [1] else none

/-- The completion event for prompt `"abc123"`. -/
def doneEv : WsEvent := .text "executing" .null "abc123"

/-! ### Helper lemmas -/

theorem Settled.rejectWith_of_ne (s : Settled) (e : TrackError) (h : s ≠ .pending) :
    s.rejectWith e = s := by
  cases s <;> simp_all [Settled.rejectWith]

theorem Settled.resolveWith_of_ne (s : Settled) (v : List (String × List ImageContainer))
    (h : s ≠ .pending) : s.resolveWith v = s := by
  cases s <;> simp_all [Settled.resolveWith]

theorem onMessage_of_not_listening (env : Env) (pid : String) (s : TrackState) (e : WsEvent)
    (h : s.listener = false) : onMessage env pid s e = s := by
  cases e <;> simp [onMessage, h]

theorem onMessage_settled_stable (env : Env) (pid : String) (s : TrackState) (e : WsEvent)
    (h : s.settled ≠ .pending) : (onMessage env pid s e).settled = s.settled := by
  cases e with
  | binary => rfl
  | close => rfl
  | malformed =>
    by_cases hl : s.listener <;>
      simp [onMessage, hl, Settled.rejectWith_of_ne _ _ h]
  | text t n p =>
    by_cases hl : s.listener
    · by_cases ht : t = "executing"
      · by_cases hn : n.truthy
        · simp [onMessage, hl, ht, hn]
        · by_cases hp : p = pid
          · simp only [onMessage, hl, ht, hn, hp, if_true, if_false,
              Bool.false_eq_true, if_neg]
            cases henv : env.history pid with
            | none => simp [henv, Settled.rejectWith_of_ne _ _ h]
            | some hist =>
              cases hf : fetchOutputs env hist.outputs with
              | error r => simp [henv, hf, Settled.rejectWith_of_ne _ _ h]
              | ok imgs => simp [henv, hf, Settled.resolveWith_of_ne _ _ h]
          · simp [onMessage, hl, ht, hn, hp]
      · simp [onMessage, hl, ht]
    · simp [onMessage, hl]

theorem onMessage_irrelevant (env : Env) (pid : String) (s : TrackState) (e : WsEvent)
    (h : irrelevantEvent pid e = true) : onMessage env pid s e = s := by
  cases e with
  | binary => rfl
  | close => simp [irrelevantEvent] at h
  | malformed => simp [irrelevantEvent] at h
  | text t n p =>
    simp only [irrelevantEvent, Bool.or_eq_true, Bool.not_eq_true', beq_eq_false_iff_ne,
      ne_eq] at h
    by_cases hl : s.listener
    · rcases h with ht | hp
      · simp [onMessage, hl, ht]
      · by_cases ht : t = "executing"
        · by_cases hn : n.truthy <;> simp [onMessage, hl, ht, hn, hp]
        · simp [onMessage, hl, ht]
    · exact onMessage_of_not_listening env pid s _ (by simpa using hl)

theorem runTrace_nil (env : Env) (pid : String) (s : TrackState) :
    runTrace env pid s [] = s := rfl

theorem runTrace_cons (env : Env) (pid : String) (s : TrackState) (e : WsEvent)
    (es : List WsEvent) :
    runTrace env pid s (e :: es) = runTrace env pid (onMessage env pid s e) es := rfl

theorem runTrace_append (env : Env) (pid : String) (s : TrackState)
    (l1 l2 : List WsEvent) :
    runTrace env pid s (l1 ++ l2) = runTrace env pid (runTrace env pid s l1) l2 :=
  List.foldl_append _ _ _ _

theorem runTrace_irrelevant (env : Env) (pid : String) (s : TrackState)
    (pre : List WsEvent) (h : ∀ e ∈ pre, irrelevantEvent pid e = true) :
    runTrace env pid s pre = s := by
  induction pre with
  | nil => rfl
  | cons e es ih =>
    rw [runTrace_cons, onMessage_irrelevant env pid s e (h e (List.mem_cons_self e es))]
    exact ih fun e' he' => h e' (List.mem_cons_of_mem e he')

theorem fetchNode_ok_images (env : Env) (refs : List ImageRef)
    (l : List ImageContainer) (h : fetchNode env refs = .ok l) :
    l.map ImageContainer.image = refs := by
  induction refs generalizing l with
  | nil => simp [fetchNode] at h; simp [← h]
  | cons r rs ih =>
    simp only [fetchNode] at h
    cases hr : env.fetchImage r with
    | none => rw [hr] at h; exact absurd h (by simp)
    | some buf =>
      rw [hr] at h
      cases ht : fetchNode env rs with
      | error r2 => rw [ht] at h; exact absurd h (by simp)
      | ok tl =>
        rw [ht] at h
        cases h
        simp [ih tl ht]

theorem fetchNode_error_failed (env : Env) (refs : List ImageRef) (r : ImageRef)
    (h : fetchNode env refs = .error r) :
    env.fetchImage r = none ∧ r ∈ refs := by
  induction refs with
  | nil => simp [fetchNode] at h
  | cons r0 rs ih =>
    simp only [fetchNode] at h
    cases hr : env.fetchImage r0 with
    | none =>
      rw [hr] at h
      cases h
      exact ⟨hr, List.mem_cons_self _ _⟩
    | some buf =>
      rw [hr] at h
      cases ht : fetchNode env rs with
      | error r2 =>
        rw [ht] at h
        cases h
        have := ih ht
        exact ⟨this.1, List.mem_cons_of_mem _ this.2⟩
      | ok tl => rw [ht] at h; exact absurd h (by simp)

theorem fetchOutputs_error_failed (env : Env) (outs : List (String × NodeOutput))
    (r : ImageRef) (h : fetchOutputs env outs = .error r) :
    env.fetchImage r = none := by
  induction outs with
  | nil => simp [fetchOutputs] at h
  | cons p rest ih =>
    obtain ⟨nid, out⟩ := p
    obtain ⟨oimg⟩ := out
    cases oimg with
    | none => simp only [fetchOutputs] at h; exact ih h
    | some refs =>
      simp only [fetchOutputs] at h
      cases hn : fetchNode env refs with
      | error r2 =>
        rw [hn] at h
        cases h
        exact (fetchNode_error_failed env refs r hn).1
      | ok imgs =>
        rw [hn] at h
        cases hrest : fetchOutputs env rest with
        | error r2 => rw [hrest] at h; cases h; exact ih hrest
        | ok tail => rw [hrest] at h; exact absurd h (by simp)

theorem fetchOutputs_ok_keys (env : Env) (outs : List (String × NodeOutput))
    (res : List (String × List ImageContainer)) (h : fetchOutputs env outs = .ok res) :
    res.map Prod.fst = (outs.filter fun p => (p.2).images.isSome).map Prod.fst := by
  induction outs generalizing res with
  | nil => simp [fetchOutputs] at h; simp [← h]
  | cons p rest ih =>
    obtain ⟨nid, out⟩ := p
    obtain ⟨oimg⟩ := out
    cases oimg with
    | none =>
      simp only [fetchOutputs] at h
      simpa [List.filter] using ih res h
    | some refs =>
      simp only [fetchOutputs] at h
      cases hn : fetchNode env refs with
      | error r2 => rw [hn] at h; exact absurd h (by simp)
      | ok imgs =>
        rw [hn] at h
        cases hrest : fetchOutputs env rest with
        | error r2 => rw [hrest] at h; exact absurd h (by simp)
        | ok tail =>
          rw [hrest] at h
          cases h
          simpa [List.filter] using ih tail hrest

theorem fetchOutputs_ok_mem (env : Env) (outs : List (String × NodeOutput))
    (res : List (String × List ImageContainer)) (h : fetchOutputs env outs = .ok res)
    (nid : String) (imgs : List ImageContainer) (hmem : (nid, imgs) ∈ res) :
    ∃ refs, (nid, NodeOutput.mk (some refs)) ∈ outs ∧
      fetchNode env refs = .ok imgs := by
  induction outs generalizing res with
  | nil =>
    simp only [fetchOutputs, Except.ok.injEq] at h
    subst h; simp at hmem
  | cons p rest ih =>
    obtain ⟨nid0, out⟩ := p
    obtain ⟨oimg⟩ := out
    cases oimg with
    | none =>
      simp only [fetchOutputs] at h
      obtain ⟨refs, hr1, hr2⟩ := ih res h hmem
      exact ⟨refs, List.mem_cons_of_mem _ hr1, hr2⟩
    | some refs0 =>
      simp only [fetchOutputs] at h
      cases hn : fetchNode env refs0 with
      | error r2 => rw [hn] at h; exact absurd h (by simp)
      | ok imgs0 =>
        rw [hn] at h
        cases hrest : fetchOutputs env rest with
        | error r2 => rw [hrest] at h; exact absurd h (by simp)
        | ok tail =>
          rw [hrest] at h
          cases h
          rcases List.mem_cons.mp hmem with heq | htail
          · have h1 : nid = nid0 := congrArg Prod.fst heq
            have h2 : imgs = imgs0 := congrArg Prod.snd heq
            subst h1
            exact ⟨refs0, List.mem_cons_self _ _, h2 ▸ hn⟩
          · obtain ⟨refs, hr1, hr2⟩ := ih tail hrest htail
            exact ⟨refs, List.mem_cons_of_mem _ hr1, hr2⟩

/-! ### Claim theorems -/

/-- C1: every sequence of irrelevant events (non-matching job identifier,
binary frames, non-`executing` event types) delivered before the matching
completion event leaves the tracking operation untouched: the state after
the prefix is unchanged (in particular still pending), the outcome of any
continuation is unaffected, and a matching `executing` event with no
active node then resolves the operation with the fetched collection. -/
theorem getImages_ignores_irrelevant_events (env : Env) (pid : String) (s : TrackState)
    (pre rest : List WsEvent) (hpre : ∀ e ∈ pre, irrelevantEvent pid e = true) :
    runTrace env pid s pre = s ∧
    runTrace env pid s (pre ++ rest) = runTrace env pid s rest ∧
    (s.settled = .pending → (runTrace env pid s pre).settled = Settled.pending) ∧
    (∀ hist res, env.history pid = some hist → fetchOutputs env hist.outputs = .ok res →
      s.listener = true → s.settled = .pending →
      (runTrace env pid s (pre ++ [WsEvent.text "executing" JSVal.null pid])).settled
        = Settled.resolved res) := by
  have h1 : runTrace env pid s pre = s := runTrace_irrelevant env pid s pre hpre
  refine ⟨h1, ?_, ?_, ?_⟩
  · rw [runTrace_append, h1]
  · intro hp; rw [h1]; exact hp
  · intro hist res henv hf hl hp
    rw [runTrace_append, h1]
    show (onMessage env pid s (WsEvent.text "executing" JSVal.null pid)).settled = _
    simp [onMessage, hl, JSVal.truthy, henv, hf, hp, Settled.resolveWith]

/-- A prefix of irrelevant events for the tracker of `"abc123"`: a binary
frame, a status message, a progress event of another job, and a
completion-shaped event for a different job. -/
def preC1 : List WsEvent :=
  [.binary, .text "status" .null "x", .text "executing" (.str "3") "zzz",
   .text "executing" .null "zzz"]

/-- The collection `env1` yields for prompt `"abc123"`. -/
def res1 : List (String × List ImageContainer) :=
  [("9", [{ buffer := [1], image := refA }, { buffer := [2], image := refB }])]

/-- Witness for C1 at a concrete trace. -/
theorem getImages_ignores_irrelevant_events_witness :
    (runTrace env1 "abc123" initState
        (preC1 ++ [WsEvent.text "executing" JSVal.null "abc123"])).settled
      = Settled.resolved res1 :=
  (getImages_ignores_irrelevant_events env1 "abc123" initState preC1 []
      (by decide)).2.2.2 { outputs := outs1 } res1 (by decide) (by rfl) (by decide) (by decide)

/-- C6: a completion event carrying job identifier `j1` never resolves —
indeed never affects at all — a tracking operation registered for a
different job identifier `j2`; this holds for any `node` payload and any
tracker state. -/
theorem completion_of_other_job_ignored (env : Env) (j1 j2 : String) (s : TrackState)
    (n : JSVal) (hne : j1 ≠ j2) :
    onMessage env j2 s (WsEvent.text "executing" n j1) = s := by
  by_cases hl : s.listener
  · by_cases hn : n.truthy <;> simp [onMessage, hl, hn, hne]
  · exact onMessage_of_not_listening env j2 s _ (by simpa using hl)

/-- Witness for C6 at concrete distinct identifiers. -/
theorem completion_of_other_job_ignored_witness :
    onMessage env1 "abc123" initState (WsEvent.text "executing" JSVal.null "zzz")
      = initState :=
  completion_of_other_job_ignored env1 "zzz" "abc123" initState JSVal.null (by decide)

/-- C9: entering `getImages` without a connected WebSocket throws the
not-connected error before `queuePrompt` is called: the server-side queue
is unchanged and no message listener is registered. -/
theorem getImages_requires_connection (q : Nat) :
    getImagesInit false q
      = { error := some noWsErrorMsg, queued := q, listenerRegistered := false } := rfl

/-- C10: for a matching `executing` event the completion test is JS
falsiness of the `node` field: any falsy value (`null`, `undefined`, `""`,
`0`, `false`) triggers the completion path (observable as the history
fetch), while any truthy value leaves the tracker state untouched. -/
theorem completion_test_is_falsiness (env : Env) (pid : String) (s : TrackState)
    (node : JSVal) (hl : s.listener = true) :
    (node.truthy = false →
      (onMessage env pid s (WsEvent.text "executing" node pid)).historyFetches
        = s.historyFetches + 1) ∧
    (node.truthy = true →
      onMessage env pid s (WsEvent.text "executing" node pid) = s) ∧
    JSVal.truthy .null = false ∧ JSVal.truthy .undef = false ∧
    JSVal.truthy (.str "") = false ∧ JSVal.truthy (.num 0) = false ∧
    JSVal.truthy (.bool false) = false ∧
    (∀ s2, s2 ≠ "" → JSVal.truthy (.str s2) = true) ∧
    (∀ n2 : Int, n2 ≠ 0 → JSVal.truthy (.num n2) = true) := by
  refine ⟨?_, ?_, rfl, rfl, by decide, by decide, rfl, ?_, ?_⟩
  · intro hn
    simp only [onMessage, hl, if_true, hn, Bool.false_eq_true, if_false, if_pos rfl]
    cases henv : env.history pid with
    | none => simp
    | some hist =>
      cases hf : fetchOutputs env hist.outputs with
      | error r => simp [hf]
      | ok imgs => simp [hf]
  · intro hn
    simp [onMessage, hl, hn]
  · intro s2 h2; simp [JSVal.truthy, h2]
  · intro n2 h2; simp [JSVal.truthy, h2]

/-- Witness for C10: the empty-string node value completes, the node
value `"3"` does not. -/
theorem completion_test_is_falsiness_witness :
    (onMessage env1 "abc123" initState
        (WsEvent.text "executing" (JSVal.str "") "abc123")).historyFetches = 1 ∧
    onMessage env1 "abc123" initState
        (WsEvent.text "executing" (JSVal.str "3") "abc123") = initState := by
  constructor
  · exact (completion_test_is_falsiness env1 "abc123" initState (JSVal.str "")
      (by decide)).1 (by decide)
  · exact (completion_test_is_falsiness env1 "abc123" initState (JSVal.str "3")
      (by decide)).2.1 (by decide)

/-- C2 counterexample: on a server where the `refB` download fails,
deliver two matching completion events.  The first one fails the
operation (`FetchError`), yet the second still triggers a further history
fetch — `historyFetches = 2` — because the rejecting path never removes
the listener.  This refutes "after failure no further history fetch is
performed / exactly one history record is fetched". -/
theorem tracking_effects_after_failure_counterexample :
    (runTrace envFail "abc123" initState [doneEv, doneEv]).settled
      = Settled.rejected (TrackError.fetchError refB) ∧
    (runTrace envFail "abc123" initState [doneEv, doneEv]).historyFetches = 2 := by
  decide

/-- C2 (amended): after a *successful* resolution the listener has been
removed, so any further event leaves the state untouched; and the settled
outcome of the promise never changes once set (at most one outcome is ever
produced).  After a *failure*, however, the listener stays registered, so
further matching events can re-trigger history/artifact fetches (their
results are discarded by the already-settled promise). -/
theorem tracking_idempotent_after_success (env : Env) (pid : String) (s : TrackState)
    (e : WsEvent) :
    (s.listener = false → onMessage env pid s e = s) ∧
    (s.settled ≠ .pending → (onMessage env pid s e).settled = s.settled) :=
  ⟨fun h => onMessage_of_not_listening env pid s e h,
   fun h => onMessage_settled_stable env pid s e h⟩

/-- Witness for the amended C2 at a resolved and at a rejected state. -/
theorem tracking_idempotent_after_success_witness :
    onMessage env1 "abc123"
        { listener := false, settled := .resolved res1, historyFetches := 1 } doneEv
      = { listener := false, settled := .resolved res1, historyFetches := 1 } ∧
    (onMessage envFail "abc123"
        { listener := true, settled := .rejected .protocolError, historyFetches := 0 }
        doneEv).settled
      = Settled.rejected TrackError.protocolError :=
  ⟨(tracking_idempotent_after_success env1 "abc123"
      { listener := false, settled := .resolved res1, historyFetches := 1 } doneEv).1
      (by decide),
   (tracking_idempotent_after_success envFail "abc123"
      { listener := true, settled := .rejected .protocolError, historyFetches := 0 }
      doneEv).2 (by decide)⟩

/-- C3 counterexample: delivering a connection close to a pending tracking
operation leaves it exactly as it was — still pending, no
`ConnectionLostError` (no such error path exists in the code; the `close`
handler installed by `connect` only logs).  This refutes "a close is
observed by the pending outcome / the operation fails rather than
remaining unresolved". -/
theorem connection_close_not_failing_counterexample :
    runTrace env1 "abc123" initState [WsEvent.close] = initState ∧
    initState.settled = Settled.pending := by
  decide

/-- C3 (amended): a close of the underlying connection is not observed by
the tracking operation at all: the handler state is unchanged by a close
event, so an operation that was pending stays pending forever. -/
theorem connection_close_unobserved (env : Env) (pid : String) (s : TrackState) :
    onMessage env pid s WsEvent.close = s := rfl

/-- C4 counterexample: a malformed text frame rejects the operation with
the parse error, but the listener is *not* deregistered — `listener` is
still `true` afterwards (the catch block calls `reject` without
`ws.off`).  This refutes "the message listener is deregistered from the
stream". -/
theorem malformed_listener_kept_counterexample :
    (runTrace env1 "abc123" initState [WsEvent.malformed]).settled
      = Settled.rejected TrackError.protocolError ∧
    (runTrace env1 "abc123" initState [WsEvent.malformed]).listener = true := by
  decide

/-- C4 (amended): a non-parseable stream message fails the pending
tracking operation with the parse error (`ProtocolError`) and the
operation is not retried (no history fetch is issued), but the message
listener remains registered on the stream. -/
theorem malformed_rejects_without_deregistering (env : Env) (pid : String)
    (s : TrackState) (hl : s.listener = true) (hp : s.settled = .pending) :
    (onMessage env pid s WsEvent.malformed).settled
      = Settled.rejected TrackError.protocolError ∧
    (onMessage env pid s WsEvent.malformed).listener = true ∧
    (onMessage env pid s WsEvent.malformed).historyFetches = s.historyFetches := by
  simp [onMessage, hl, hp, Settled.rejectWith]

/-- Witness for the amended C4 at the initial state. -/
theorem malformed_rejects_without_deregistering_witness :
    (onMessage env1 "abc123" initState WsEvent.malformed).settled
      = Settled.rejected TrackError.protocolError ∧
    (onMessage env1 "abc123" initState WsEvent.malformed).listener = true ∧
    (onMessage env1 "abc123" initState WsEvent.malformed).historyFetches
      = initState.historyFetches :=
  malformed_rejects_without_deregistering env1 "abc123" initState (by decide) (by decide)

/-- C5: if, after the matching completion event, the artifact fetch loop
fails, the failing reference is one whose download failed
(`fetchImage = none`), the operation is rejected with a `FetchError`
naming that reference, and no collection is ever resolved — partial
results are not returned in any form. -/
theorem fetch_failure_fails_operation (env : Env) (pid : String) (s : TrackState)
    (hist : HistoryEntry) (r : ImageRef) (hl : s.listener = true)
    (hp : s.settled = .pending) (hh : env.history pid = some hist)
    (hf : fetchOutputs env hist.outputs = .error r) :
    env.fetchImage r = none ∧
    (onMessage env pid s (WsEvent.text "executing" JSVal.null pid)).settled
      = Settled.rejected (TrackError.fetchError r) ∧
    ∀ imgs, (onMessage env pid s (WsEvent.text "executing" JSVal.null pid)).settled
      ≠ Settled.resolved imgs := by
  refine ⟨fetchOutputs_error_failed env hist.outputs r hf, ?_, ?_⟩
  · simp [onMessage, hl, hh, hf, hp, Settled.rejectWith, JSVal.truthy]
  · intro imgs
    simp [onMessage, hl, hh, hf, hp, Settled.rejectWith, JSVal.truthy]

/-- Witness for C5 on `envFail`, where downloading `refB` fails. -/
theorem fetch_failure_fails_operation_witness :
    envFail.fetchImage refB = none ∧
    (onMessage envFail "abc123" initState
        (WsEvent.text "executing" JSVal.null "abc123")).settled
      = Settled.rejected (TrackError.fetchError refB) := by
  have h := fetch_failure_fails_operation envFail "abc123" initState
    { outputs := [("9", { images := some [refA, refB] })] } refB
    (by decide) (by decide) (by decide) (by rfl)
  exact ⟨h.1, h.2.1⟩

/-- C7: in a successfully assembled collection, each node's artifact list
corresponds to a declared `images` entry of the history record, appears
in exactly the listed reference order (the `image` component of the
containers is the reference list itself), and has one artifact per listed
reference. -/
theorem node_artifacts_listed_order (env : Env) (outs : List (String × NodeOutput))
    (res : List (String × List ImageContainer)) (h : fetchOutputs env outs = .ok res)
    (nid : String) (imgs : List ImageContainer) (hmem : (nid, imgs) ∈ res) :
    ∃ refs, (nid, NodeOutput.mk (some refs)) ∈ outs ∧
      List.map ImageContainer.image imgs = refs ∧ imgs.length = refs.length := by
  obtain ⟨refs, h1, h2⟩ := fetchOutputs_ok_mem env outs res h nid imgs hmem
  have hm := fetchNode_ok_images env refs imgs h2
  exact ⟨refs, h1, hm, by rw [← hm]; simp⟩

/-- Witness for C7: the spec's round-trip — node `"9"` listing
`a.png` then `b.png` yields exactly two artifacts in that order with
matching filenames. -/
theorem node_artifacts_listed_order_witness :
    (∃ refs, (("9" : String), NodeOutput.mk (some refs)) ∈ outs1 ∧
      List.map ImageContainer.image
        [{ buffer := [1], image := refA }, { buffer := [2], image := refB }] = refs ∧
      ([{ buffer := [1], image := refA },
        { buffer := [2], image := refB }] : List ImageContainer).length = refs.length) ∧
    List.map ImageContainer.image
        [{ buffer := [1], image := refA }, { buffer := [2], image := refB }]
      = [refA, refB] ∧
    refA.filename = "a.png" ∧ refB.filename = "b.png" :=
  ⟨node_artifacts_listed_order env1 outs1 res1 (by rfl) "9"
      [{ buffer := [1], image := refA }, { buffer := [2], image := refB }] (by decide),
   by decide, rfl, rfl⟩

/-- History outputs with a declared-but-empty `images` array on node `"9"`
and no `images` field on node `"10"`. -/
def outs2 : List (String × NodeOutput) :=
  [("9", { images := some [] }), ("10", { images := none })]

/-- C8: the keys of a successfully assembled collection are exactly the
keys of the history outputs whose entry declares an `images` field, in
order — a node without a declared `images` field is entirely absent, while
a node declaring an empty `images` array is present (with an empty list). -/
theorem result_keys_are_declared_images_nodes (env : Env)
    (outs : List (String × NodeOutput)) (res : List (String × List ImageContainer))
    (h : fetchOutputs env outs = .ok res) :
    List.map Prod.fst res
      = List.map Prod.fst (outs.filter fun p => (p.2).images.isSome) :=
  fetchOutputs_ok_keys env outs res h

/-- Witness for C8 on `outs2`: node `"9"` (empty declared array) appears
with an empty artifact list, node `"10"` (no `images` field) is absent. -/
theorem result_keys_are_declared_images_nodes_witness :
    fetchOutputs env1 outs2 = .ok [("9", [])] ∧
    List.map Prod.fst [(("9" : String), ([] : List ImageContainer))]
      = List.map Prod.fst (outs2.filter fun p => (p.2).images.isSome) :=
  ⟨by rfl, result_keys_are_declared_images_nodes env1 outs2 [("9", [])] (by rfl)⟩

end ComfyClient
